import Mathlib

/-!
Verification of the retrieve-then-analyze customs-query workflow
(`scripts/query_customs.py`).

The embedding models:
  * `CustomsState` — the pydantic state model with its question validator;
  * `OpenSearchRetriever.get_relevant_documents` — one search attempt against
    the store, wrapped by the tenacity retry decorator
    `retry(stop=stop_after_attempt(3), wait=wait_exponential(multiplier=1, min=4, max=10))`;
  * `retrieve_documents` — the retrieve stage: fetch documents, build the
    textual context, capture failures into `state.error`;
  * `CustomsAnalyzer.analyze_documents` — the analyze stage: short-circuit on
    `error`, insufficient-context check, shape-dispatch on the model response;
  * the two-node workflow `retrieve -> analyze -> END`.

The external store and model are modelled by their observable behaviour at the
call boundary: the store by the outcome of each search attempt
(`Nat → SearchOutcome`, indexed by the 1-based attempt number), the model by the
value its single `invoke` call produces (`LLMResponse`). Python numeric
metadata values are carried as their rendered decimal strings, since the code
only ever interpolates them into f-strings.
-/

namespace CustomsQuery

/-- A raw `_source` record of one OpenSearch hit; every field the code reads
with `source.get(key, default)` is optional here, and the getters below apply
exactly the defaults the code passes to `.get`. Numeric defaults (`0`) appear
as their rendered string `"0"`. -/
structure HitSource where
  declaration_number : Option String := none
  processing_date : Option String := none
  customs_office : Option String := none
  product_code : Option String := none
  net_weight : Option String := none
  gross_weight : Option String := none
  invoice_value : Option String := none
  unit : Option String := none
  quantity : Option String := none
  origin_country : Option String := none
  trade_mark : Option String := none
  product_description : Option String := none
deriving DecidableEq, Repr

/-- One OpenSearch hit: its `_source` record and its `_score` (optional,
default rendered `"0"`). -/
structure Hit where
  source : HitSource := {}
  score : Option String := none
deriving DecidableEq, Repr

/-- The metadata dict built for each hit in `get_relevant_documents`
(lines 159-172): all keys present, defaults already applied. -/
structure DocMetadata where
  declaration_number : String
  processing_date : String
  customs_office : String
  product_code : String
  net_weight : String
  gross_weight : String
  invoice_value : String
  unit : String
  quantity : String
  origin_country : String
  trade_mark : String
  score : String
deriving DecidableEq, Repr

/-- A langchain `Document` as produced by the retriever. -/
structure Document where
  page_content : String
  metadata : DocMetadata
deriving DecidableEq, Repr

/-- `documents.append(Document(page_content=source.get("product_description", ""), metadata=...))`,
with the metadata defaults of lines 159-172. -/
def hitToDocument (h : Hit) : Document :=
  { page_content := h.source.product_description.getD ""
    metadata :=
      { declaration_number := h.source.declaration_number.getD "N/A"
        processing_date := h.source.processing_date.getD "N/A"
        customs_office := h.source.customs_office.getD "N/A"
        product_code := h.source.product_code.getD "N/A"
        net_weight := h.source.net_weight.getD "0"
        gross_weight := h.source.gross_weight.getD "0"
        invoice_value := h.source.invoice_value.getD "0"
        unit := h.source.unit.getD "шт"
        quantity := h.source.quantity.getD "0"
        origin_country := h.source.origin_country.getD "N/A"
        trade_mark := h.source.trade_mark.getD "N/A"
        score := h.score.getD "0" } }

/-- Python exceptions that cross the boundaries the claims talk about. -/
inductive PyError where
  /-- `opensearchpy.ConnectionError` (transient connectivity/timeout). -/
  | connectionError (msg : String)
  /-- `opensearchpy.RequestError` (malformed query / query-syntax error). -/
  | requestError (msg : String)
  /-- any other exception. -/
  | exception (msg : String)
  /-- `AttributeError` raised when a nonexistent attribute is accessed. -/
  | attributeError (name : String)
  /-- `tenacity.RetryError` wrapping the last exception after the retry
  decorator (default `reraise=False`) exhausts its attempts. -/
  | retryError (last : PyError)
deriving DecidableEq, Repr

/-- Python `str(e)` for the exceptions above. The exact rendering of
`RetryError` and `AttributeError` is an implementation detail of the Python
runtime; only its existence matters to the claims. -/
def PyError.toMessage : PyError → String
  | .connectionError m => m
  | .requestError m => m
  | .exception m => m
  | .attributeError n => "object has no attribute " ++ n
  | .retryError last => "RetryError: " ++ last.toMessage

/-- Observable outcome of one `client.search` call: either the list of hits
(`response["hits"]["hits"]`) or a raised exception. -/
inductive SearchOutcome where
  | hits (hs : List Hit)
  | connectionError (msg : String)
  | requestError (msg : String)
  | otherError (msg : String)
deriving DecidableEq, Repr

/-- One attempt of `OpenSearchRetriever.get_relevant_documents` (the body of
the `try`): zero hits return `[]` (no exception, lines 151-153), hits are
mapped to `Document`s, and every caught exception is re-raised (lines
183-191). -/
def get_relevant_documents_once (outcome : SearchOutcome) :
    Except PyError (List Document) :=
  match outcome with
  | .hits hs => .ok (hs.map hitToDocument)
  | .connectionError m => .error (.connectionError m)
  | .requestError m => .error (.requestError m)
  | .otherError m => .error (.exception m)

/-- The wait computed by `wait_exponential(multiplier=1, min=4, max=10)` after
the `n`-th failed attempt: `max(min, min(multiplier * 2^n, max))`. -/
def waitExp (n : Nat) : Nat := max 4 (min (2 ^ n) 10)

/-- `get_relevant_documents` as decorated by
`@retry(stop=stop_after_attempt(3), wait=wait_exponential(multiplier=1, min=4, max=10))`.
tenacity's default retry predicate retries on every `Exception`; after the
third failed attempt it raises `RetryError` (default `reraise=False`).
`client n` is the outcome of the `n`-th search attempt (1-based, as tenacity
numbers attempts). Returns the result, the number of attempts made, and the
list of backoff waits (seconds) taken between attempts. -/
def getRelevantWithRetry (client : Nat → SearchOutcome) :
    Except PyError (List Document) × Nat × List Nat :=
  match get_relevant_documents_once (client 1) with
  | .ok docs => (.ok docs, 1, [])
  | .error _ =>
    match get_relevant_documents_once (client 2) with
    | .ok docs => (.ok docs, 2, [waitExp 1])
    | .error _ =>
      match get_relevant_documents_once (client 3) with
      | .ok docs => (.ok docs, 3, [waitExp 1, waitExp 2])
      | .error e => (.error (.retryError e), 3, [waitExp 1, waitExp 2])

/-- The pydantic state model `CustomsState` (lines 38-63). The `metadata`
dict is never touched by the workflow and is kept as an association list. -/
structure CustomsState where
  question : String
  context : Option String := none
  documents : List Document := []
  response : Option String := none
  error : Option String := none
  metadata : List (String × String) := []
deriving DecidableEq, Repr

/-- `update_error` (line 59-60). -/
def CustomsState.update_error (s : CustomsState) (error_msg : String) : CustomsState :=
  { s with error := some error_msg }

/-- `update_response` (line 62-63). -/
def CustomsState.update_response (s : CustomsState) (response_msg : String) : CustomsState :=
  { s with response := some response_msg }

/-- Python `str.strip()`: drop whitespace from both ends of the string. -/
def pyStrip (s : String) : String :=
  ⟨((s.data.dropWhile Char.isWhitespace).reverse.dropWhile Char.isWhitespace).reverse⟩

/-- The `validate_question` field validator (lines 52-57): reject a question
that is empty after stripping, otherwise store the stripped question. -/
def validate_question (v : String) : Except String String :=
  if pyStrip v = "" then .error "Question cannot be empty" else .ok (pyStrip v)

/-- `CustomsState(question=question)`: pydantic runs the validator at
construction; a failed validation raises before any stage can run. -/
def mkCustomsState (question : String) : Except String CustomsState :=
  match validate_question question with
  | .error e => .error e
  | .ok q => .ok { question := q }

/-- One rendered block of `context_parts` (lines 317-329), with the metadata
dict lookups already resolved (every key is present by construction of
`hitToDocument`). -/
def renderDoc (doc : Document) : String :=
  "Декларація №" ++ doc.metadata.declaration_number ++ "\n" ++
  "Дата оформлення: " ++ doc.metadata.processing_date ++ "\n" ++
  "Код товару: " ++ doc.metadata.product_code ++ "\n" ++
  "Опис: " ++ doc.page_content ++ "\n" ++
  "Вага нетто: " ++ doc.metadata.net_weight ++ " кг\n" ++
  "Кількість: " ++ doc.metadata.quantity ++ " " ++ doc.metadata.unit ++ "\n" ++
  "Вартість: " ++ doc.metadata.invoice_value ++ " USD\n" ++
  "Країна походження: " ++ doc.metadata.origin_country ++ "\n" ++
  "Торгова марка: " ++ doc.metadata.trade_mark ++ "\n" ++
  "Митний орган: " ++ doc.metadata.customs_office ++ "\n" ++
  "---\n"

/-- Python `"\n".join(parts)`. -/
def joinNl : List String → String
  | [] => ""
  | [x] => x
  | x :: y :: rest => x ++ "\n" ++ joinNl (y :: rest)

/-- The context building of `retrieve_documents` (lines 313-331) as a function
of the retrieved document sequence. -/
def build_context (docs : List Document) : String :=
  joinNl (docs.map renderDoc)

/-- The `retrieve` stage (`retrieve_documents`, lines 304-337). The whole body
sits in a `try` whose `except Exception` stores the failure message into
`state.error`, so the stage itself never raises. Zero documents set the
"no matching records" message into `state.error` (line 310). Also returns the
attempt count and backoff waits of the underlying retried search. -/
def retrieve_documents (client : Nat → SearchOutcome) (state : CustomsState) :
    CustomsState × Nat × List Nat :=
  match getRelevantWithRetry client with
  | (.error e, attempts, waits) =>
      ({ state with error := some ("Помилка при пошуку документів: " ++ e.toMessage) },
       attempts, waits)
  | (.ok [], attempts, waits) =>
      ({ state with documents := [],
                    error := some "Не знайдено відповідних документів" },
       attempts, waits)
  | (.ok (d :: ds), attempts, waits) =>
      ({ state with documents := d :: ds,
                    context := some (build_context (d :: ds)) },
       attempts, waits)

/-- The value `self.llm.invoke(messages)` produces, by observable shape:
a `HumanMessage`, some other object exposing a `content` attribute, a plain
Python `str` (which has NO `content` attribute), a raw integer, or a raised
exception. -/
inductive LLMResponse where
  | humanMessage (content : String)
  | withContent (content : String)
  | plainStr (s : String)
  | rawInt (n : Int)
  | raises (msg : String)
deriving DecidableEq, Repr

/-- `isinstance(response, HumanMessage)`. -/
def LLMResponse.isHumanMessage : LLMResponse → Bool
  | .humanMessage _ => true
  | _ => false

/-- `hasattr(response, "content")`: true for `HumanMessage` and for structured
message objects; false for a plain `str` and for an `int`. -/
def LLMResponse.hasContentAttr : LLMResponse → Bool
  | .humanMessage _ => true
  | .withContent _ => true
  | _ => false

/-- `response.content` where it exists (only read under `hasContentAttr`). -/
def LLMResponse.content : LLMResponse → String
  | .humanMessage c => c
  | .withContent c => c
  | _ => ""

/-- `if not state.context or len(state.context) < 10` (line 202): `None` and
`""` are falsy, and the length test uses the fixed threshold 10. -/
def insufficientContext : Option String → Bool
  | none => true
  | some c => decide (c = "" ∨ c.length < 10)

/-- The `analyze` stage (`CustomsAnalyzer.analyze_documents`, lines 198-261).
Returns the possibly-raising result together with the number of
`self.llm.invoke` calls made. When `invoke` raises, the `except` handler
executes `state.set_error(str(e))` — but `CustomsState` defines no `set_error`
method (only `update_error`), so the handler itself raises `AttributeError`,
which escapes the stage. -/
def analyze_documents (llm : LLMResponse) (state : CustomsState) :
    Except PyError CustomsState × Nat :=
  if state.error.isSome then (.ok state, 0)
  else if insufficientContext state.context then
    (.ok { state with error := some "Недостатньо даних для аналізу" }, 0)
  else
    match llm with
    | .raises _ => (.error (.attributeError "set_error"), 1)
    | r =>
      if r.isHumanMessage then (.ok (state.update_response r.content), 1)
      else if r.hasContentAttr then (.ok (state.update_response r.content), 1)
      else (.ok (state.update_error "Неочікуваний формат відповіді від моделі"), 1)

def exceptDecEq {ε α : Type} [DecidableEq ε] [DecidableEq α] :
    (x y : Except ε α) → Decidable (x = y)
  | .error a, .error b =>
    if h : a = b then .isTrue (congrArg Except.error h)
    else .isFalse (fun hc => h (Except.error.injEq a b ▸ hc))
  | .error _, .ok _ => .isFalse (fun hc => Except.noConfusion hc)
  | .ok _, .error _ => .isFalse (fun hc => Except.noConfusion hc)
  | .ok a, .ok b =>
    if h : a = b then .isTrue (congrArg Except.ok h)
    else .isFalse (fun hc => h (Except.ok.injEq a b ▸ hc))

instance {ε α : Type} [DecidableEq ε] [DecidableEq α] : DecidableEq (Except ε α) :=
  exceptDecEq

/-- Observable trace of one workflow run: the final state (or escaped
exception), the number of store search attempts, the backoff waits, and the
number of language-model invocations. -/
structure RunTrace where
  result : Except PyError CustomsState
  storeAttempts : Nat
  waits : List Nat
  llmCalls : Nat
deriving DecidableEq, Repr

/-- One full run for one question: `CustomsState(question=question)` (pydantic
validation), then the compiled graph `retrieve -> analyze -> END`
(`create_customs_graph`, lines 289-302). A failed validation raises before
either stage, so neither the store nor the model is called. -/
def run_workflow (client : Nat → SearchOutcome) (llm : LLMResponse)
    (question : String) : RunTrace :=
  match mkCustomsState question with
  | .error e => { result := .error (.exception e), storeAttempts := 0, waits := [], llmCalls := 0 }
  | .ok s0 =>
    match retrieve_documents client s0 with
    | (s1, attempts, waits) =>
      match analyze_documents llm s1 with
      | (res, calls) =>
        { result := res, storeAttempts := attempts, waits := waits, llmCalls := calls }

/-- Exactly one of `response`/`error` is set. -/
def exactlyOneSet (s : CustomsState) : Prop :=
  (s.response.isSome ∧ s.error = none) ∨ (s.response = none ∧ s.error.isSome)

instance (s : CustomsState) : Decidable (exactlyOneSet s) := by
  unfold exactlyOneSet; infer_instance

/-! ### Shared structural lemmas -/

/-- Every rendered document block is at least 12 characters long: it begins
with the fixed literal `"Декларація №"`. -/
theorem renderDoc_length (d : Document) : 12 ≤ (renderDoc d).length := by
  have h12 : ("Декларація №" : String).length = 12 := rfl
  simp only [renderDoc, String.length_append]
  omega

/-- The context built from a nonempty document list is at least 12 characters
long. -/
theorem build_context_length (d : Document) (ds : List Document) :
    12 ≤ (build_context (d :: ds)).length := by
  cases ds with
  | nil => simpa [build_context, joinNl] using renderDoc_length d
  | cons e es =>
    have hd := renderDoc_length d
    simp only [build_context, List.map_cons, joinNl, String.length_append]
    omega

/-- A context of length at least 10 passes the insufficiency check. -/
theorem insufficientContext_eq_false {c : String} (h : 10 ≤ c.length) :
    insufficientContext (some c) = false := by
  simp only [insufficientContext, decide_eq_false_iff_not, not_or]
  refine ⟨?_, by omega⟩
  intro hc
  rw [hc] at h
  simp at h

/-- What the retrieve stage guarantees about its output state: the question
and response are untouched, and either an error was recorded or the error
field is untouched and the context was built from a nonempty document list. -/
theorem retrieve_documents_cases (client : Nat → SearchOutcome) (s : CustomsState) :
    (retrieve_documents client s).1.question = s.question ∧
    (retrieve_documents client s).1.response = s.response ∧
    ((retrieve_documents client s).1.error.isSome ∨
      ((retrieve_documents client s).1.error = s.error ∧
        ∃ d ds, (retrieve_documents client s).1.context = some (build_context (d :: ds)))) := by
  rcases h : getRelevantWithRetry client with ⟨res, attempts, waits⟩
  cases res with
  | error e => simp [retrieve_documents, h]
  | ok docs =>
    cases docs with
    | nil => simp [retrieve_documents, h]
    | cons d ds =>
      refine ⟨by simp [retrieve_documents, h], by simp [retrieve_documents, h], .inr ⟨?_, d, ds, ?_⟩⟩
      · simp [retrieve_documents, h]
      · simp [retrieve_documents, h]

/-- The analyze stage short-circuits on a pre-existing error: the state is
returned unchanged and the model is not invoked. -/
theorem analyze_documents_short (llm : LLMResponse) (s : CustomsState) (e : String)
    (he : s.error = some e) :
    analyze_documents llm s = (.ok s, 0) := by
  simp [analyze_documents, he]

/-- The "no matching records" message is distinguishable from every
retrieval-failure message (which always carries the fixed failure prefix):
their first characters differ. -/
theorem noDocs_ne_failureMsg (m : String) :
    "Не знайдено відповідних документів" ≠ "Помилка при пошуку документів: " ++ m := by
  intro h
  have h2 : (some 'Н' : Option Char) = some 'П' :=
    congrArg (fun s => s.data.head?) h
  exact absurd h2 (by decide)

/-! ### Claim theorems -/

/-- C1, as written, is false on the code: for a question whose retrieval
returns zero hits, the "no matching records" message lands in the `error`
field, not in `response`. Concretely, for the question `"двигун"` and a store
returning zero hits, the final state has `response = none` and
`error = some "Не знайдено відповідних документів"` (the model is still never
invoked). -/
theorem C1_counterexample :
    (run_workflow (fun _ => SearchOutcome.hits []) (LLMResponse.humanMessage "ok")
        "двигун").result
      = Except.ok { question := "двигун", documents := [],
                    error := some "Не знайдено відповідних документів" } ∧
    ({ question := "двигун", documents := [],
       error := some "Не знайдено відповідних документів" } : CustomsState).response = none ∧
    ({ question := "двигун", documents := [],
       error := some "Не знайдено відповідних документів" } : CustomsState).error ≠ none ∧
    (run_workflow (fun _ => SearchOutcome.hits []) (LLMResponse.humanMessage "ok")
        "двигун").llmCalls = 0 := by
  decide

/-- C1 (amended): for every question whose retrieval returns zero hits, the
workflow completes with the user-facing "no matching records" message
`"Не знайдено відповідних документів"` stored in `error` (`response` stays
unset), the language-model client is never invoked, and the message differs
from every retrieval-failure message (those carry the fixed prefix
`"Помилка при пошуку документів: "`), so the two outcomes remain
distinguishable — by message text, not by field. -/
theorem C1_empty_hits (client : Nat → SearchOutcome) (llm : LLMResponse)
    (q : String) (hq : pyStrip q ≠ "")
    (hclient : client 1 = SearchOutcome.hits []) :
    (run_workflow client llm q).result
      = Except.ok { question := pyStrip q, documents := [],
                    error := some "Не знайдено відповідних документів" } ∧
    (run_workflow client llm q).llmCalls = 0 ∧
    (∀ m : String, "Не знайдено відповідних документів" ≠
        "Помилка при пошуку документів: " ++ m) := by
  have hrun : run_workflow client llm q =
      { result := Except.ok { question := pyStrip q, documents := [],
                              error := some "Не знайдено відповідних документів" },
        storeAttempts := 1, waits := [], llmCalls := 0 } := by
    simp [run_workflow, mkCustomsState, validate_question, hq,
          retrieve_documents, getRelevantWithRetry, hclient,
          get_relevant_documents_once, analyze_documents]
  exact ⟨by rw [hrun], by rw [hrun], noDocs_ne_failureMsg⟩

/-- C1 (amended) at a concrete input: question `"двигун"`, a store returning
zero hits on the first attempt. -/
theorem C1_empty_hits_witness :
    (pyStrip "двигун" ≠ "" ∧
      (fun _ : Nat => SearchOutcome.hits []) 1 = SearchOutcome.hits []) ∧
    ((run_workflow (fun _ => SearchOutcome.hits []) (LLMResponse.humanMessage "ok")
        "двигун").result
      = Except.ok { question := pyStrip "двигун", documents := [],
                    error := some "Не знайдено відповідних документів" } ∧
    (run_workflow (fun _ => SearchOutcome.hits []) (LLMResponse.humanMessage "ok")
        "двигун").llmCalls = 0 ∧
    (∀ m : String, "Не знайдено відповідних документів" ≠
        "Помилка при пошуку документів: " ++ m)) :=
  ⟨⟨by decide, rfl⟩,
    C1_empty_hits (fun _ => SearchOutcome.hits []) (LLMResponse.humanMessage "ok")
      "двигун" (by decide) rfl⟩

/-- Unfolding of a run whose question passes validation. -/
theorem run_workflow_ok (client : Nat → SearchOutcome) (llm : LLMResponse) (q : String)
    (hq : pyStrip q ≠ "") :
    run_workflow client llm q =
      { result := (analyze_documents llm (retrieve_documents client { question := pyStrip q }).1).1,
        storeAttempts := (retrieve_documents client { question := pyStrip q }).2.1,
        waits := (retrieve_documents client { question := pyStrip q }).2.2,
        llmCalls := (analyze_documents llm (retrieve_documents client { question := pyStrip q }).1).2 } := by
  rw [run_workflow, mkCustomsState, validate_question, if_neg hq]

/-- C2: for every non-empty (after stripping) question, whenever the workflow
completes (returns a final state rather than crashing), exactly one of the
state's `response` and `error` fields is set — never both, never neither. -/
theorem C2_exactly_one (client : Nat → SearchOutcome) (llm : LLMResponse)
    (q : String) (s : CustomsState) (hq : pyStrip q ≠ "")
    (hs : (run_workflow client llm q).result = Except.ok s) :
    exactlyOneSet s := by
  rw [run_workflow_ok client llm q hq] at hs
  set s1 := (retrieve_documents client { question := pyStrip q }).1 with hdef
  obtain ⟨hq1, hresp, herr⟩ := retrieve_documents_cases client { question := pyStrip q }
  rw [← hdef] at hresp herr
  have hrespnone : s1.response = none := by rw [hresp]
  rcases herr with hsome | ⟨herrnone, d, ds, hctx⟩
  · obtain ⟨e, he⟩ := Option.isSome_iff_exists.mp hsome
    rw [analyze_documents_short llm s1 e he] at hs
    simp only [Except.ok.injEq] at hs
    subst hs
    exact Or.inr ⟨hrespnone, by simp [he]⟩
  · have herrnone' : s1.error = none := by rw [herrnone]
    have hctxlen : 10 ≤ (build_context (d :: ds)).length :=
      le_trans (by norm_num) (build_context_length d ds)
    have hinsuff : insufficientContext s1.context = false := by
      rw [hctx]; exact insufficientContext_eq_false hctxlen
    cases llm with
    | humanMessage c =>
      simp [analyze_documents, herrnone', hinsuff, LLMResponse.isHumanMessage,
        LLMResponse.hasContentAttr, LLMResponse.content,
        CustomsState.update_response] at hs
      subst hs
      simp [exactlyOneSet]
    | withContent c =>
      simp [analyze_documents, herrnone', hinsuff, LLMResponse.isHumanMessage,
        LLMResponse.hasContentAttr, LLMResponse.content,
        CustomsState.update_response] at hs
      subst hs
      simp [exactlyOneSet]
    | plainStr str0 =>
      simp [analyze_documents, herrnone', hinsuff, LLMResponse.isHumanMessage,
        LLMResponse.hasContentAttr, CustomsState.update_error] at hs
      subst hs
      simp [exactlyOneSet, hrespnone]
    | rawInt n =>
      simp [analyze_documents, herrnone', hinsuff, LLMResponse.isHumanMessage,
        LLMResponse.hasContentAttr, CustomsState.update_error] at hs
      subst hs
      simp [exactlyOneSet, hrespnone]
    | raises msg =>
      simp [analyze_documents, herrnone', hinsuff] at hs

/-- C2 at a concrete input: question `"питання"`, a store returning zero hits,
so the completed state has `error` set and `response` unset. -/
theorem C2_exactly_one_witness :
    (pyStrip "питання" ≠ "" ∧
      (run_workflow (fun _ => SearchOutcome.hits []) (LLMResponse.humanMessage "ok")
          "питання").result
        = Except.ok { question := "питання", documents := [],
                      error := some "Не знайдено відповідних документів" }) ∧
    exactlyOneSet { question := "питання", documents := [],
                    error := some "Не знайдено відповідних документів" } :=
  ⟨⟨by decide, by decide⟩,
    C2_exactly_one (fun _ => SearchOutcome.hits []) (LLMResponse.humanMessage "ok")
      "питання" _ (by decide) (by decide)⟩

/-- C3 is right about the intent but the code is wrong: when the model call
raises during analysis, the `except` handler executes `state.set_error(str(e))`,
a method `CustomsState` does not define (the class defines `update_error`),
so an `AttributeError` escapes the stage and crashes the orchestrator instead
of being converted into an error message in the state. Evaluated at a concrete
failing input: one retrieved document, a model call that raises. -/
theorem C3_handler_crashes :
    run_workflow (fun _ => SearchOutcome.hits [{}])
        (LLMResponse.raises "model connection failed") "питання"
      = { result := Except.error (PyError.attributeError "set_error"),
          storeAttempts := 1, waits := [], llmCalls := 1 } := by
  have h : retrieve_documents (fun _ => SearchOutcome.hits [{}])
      { question := "питання" }
      = ({ question := "питання",
           context := some (build_context [hitToDocument {}]),
           documents := [hitToDocument {}] }, 1, []) := by
    simp [retrieve_documents, getRelevantWithRetry, get_relevant_documents_once]
  have hctx : insufficientContext (some (build_context [hitToDocument {}])) = false :=
    insufficientContext_eq_false
      (le_trans (by norm_num) (build_context_length (hitToDocument {}) []))
  rw [run_workflow, mkCustomsState, validate_question,
      if_neg (show pyStrip "питання" ≠ "" by decide)]
  simp [pyStrip, h, analyze_documents, hctx]

/-- C4 is right about the intent but the code is wrong: `hasattr(response,
"content")` is false for a plain Python string, so a simple string returned
by the model client is NOT normalized into `response`; it falls into the
unrecognized-shape branch and sets the `AnalysisError` message instead.
A raw integer does produce that error message (as the claim says). Evaluated
at a state with a sufficient context. -/
theorem C4_string_not_normalized :
    analyze_documents (LLMResponse.plainStr "Відповідь моделі")
        { question := "ціна", context := some "0123456789" }
      = (Except.ok { question := "ціна", context := some "0123456789",
                     error := some "Неочікуваний формат відповіді від моделі" }, 1) ∧
    ({ question := "ціна", context := some "0123456789",
       error := some "Неочікуваний формат відповіді від моделі" } : CustomsState).response
      = none ∧
    (LLMResponse.plainStr "Відповідь моделі").hasContentAttr = false ∧
    analyze_documents (LLMResponse.rawInt 7)
        { question := "ціна", context := some "0123456789" }
      = (Except.ok { question := "ціна", context := some "0123456789",
                     error := some "Неочікуваний формат відповіді від моделі" }, 1) := by
  decide

/-- C5: once `error` is set in the state, the analyze stage (the only stage
that can run after an error is recorded) does not execute its body: the state
comes back unchanged — the error is neither overwritten nor cleared — and the
model is never invoked. -/
theorem C5_error_preserved (llm : LLMResponse) (s : CustomsState) (e : String)
    (he : s.error = some e) :
    analyze_documents llm s = (Except.ok s, 0) :=
  analyze_documents_short llm s e he

/-- C5 at a concrete input: a state already carrying an error. -/
theorem C5_error_preserved_witness :
    ({ question := "q", error := some "помилка" } : CustomsState).error = some "помилка" ∧
    analyze_documents (LLMResponse.humanMessage "ok")
        { question := "q", error := some "помилка" }
      = (Except.ok { question := "q", error := some "помилка" }, 0) :=
  ⟨rfl, C5_error_preserved (LLMResponse.humanMessage "ok")
    { question := "q", error := some "помилка" } "помилка" rfl⟩

/-- C6, as written, is false on the code: the tenacity decorator is configured
with `stop_after_attempt(3)` and no `retry=` predicate, and tenacity's default
predicate retries on every `Exception` — including `RequestError` (a
query-syntax error). A client that always raises `RequestError` is retried:
3 attempts are made (not 1), backoff waits are taken, and what finally
surfaces is a `RetryError` wrapping the `RequestError`. -/
theorem C6_counterexample :
    getRelevantWithRetry (fun _ => SearchOutcome.requestError "malformed filter")
      = (Except.error (PyError.retryError (PyError.requestError "malformed filter")),
         3, [4, 4]) ∧
    (3 : Nat) ≠ 1 := by
  decide

/-- C6 (amended): a retrieval call failing with a query-syntax error
(`RequestError`) is retried under the same policy as transient errors — the
retry decorator's default predicate retries every exception — so a malformed
query surfaces only after all 3 attempts are exhausted, wrapped in a
`RetryError`, rather than immediately. -/
theorem C6_requestError_retried (client : Nat → SearchOutcome) (m : String)
    (hclient : ∀ n, client n = SearchOutcome.requestError m) :
    getRelevantWithRetry client
      = (Except.error (PyError.retryError (PyError.requestError m)), 3,
         [waitExp 1, waitExp 2]) := by
  simp [getRelevantWithRetry, hclient, get_relevant_documents_once]

/-- C6 (amended) at a concrete input: a client that always raises
`RequestError "malformed filter"`. -/
theorem C6_requestError_retried_witness :
    (∀ n : Nat, (fun _ : Nat => SearchOutcome.requestError "malformed filter") n
        = SearchOutcome.requestError "malformed filter") ∧
    getRelevantWithRetry (fun _ => SearchOutcome.requestError "malformed filter")
      = (Except.error (PyError.retryError (PyError.requestError "malformed filter")), 3,
         [waitExp 1, waitExp 2]) :=
  ⟨fun _ => rfl,
    C6_requestError_retried (fun _ => SearchOutcome.requestError "malformed filter")
      "malformed filter" (fun _ => rfl)⟩

/-- C7: for every question that is empty or whitespace-only, the pydantic
validator rejects the state at construction — the workflow fails with the
`ValidationError` message before either stage runs, with zero store calls and
zero model calls. -/
theorem C7_empty_question (client : Nat → SearchOutcome) (llm : LLMResponse)
    (q : String) (hq : pyStrip q = "") :
    run_workflow client llm q
      = { result := Except.error (PyError.exception "Question cannot be empty"),
          storeAttempts := 0, waits := [], llmCalls := 0 } := by
  rw [run_workflow, mkCustomsState, validate_question, if_pos hq]

/-- C7 at a concrete input: the whitespace-only question `"   "`. -/
theorem C7_empty_question_witness :
    pyStrip "   " = "" ∧
    run_workflow (fun _ => SearchOutcome.hits []) (LLMResponse.plainStr "x") "   "
      = { result := Except.error (PyError.exception "Question cannot be empty"),
          storeAttempts := 0, waits := [], llmCalls := 0 } :=
  ⟨by decide, C7_empty_question (fun _ => SearchOutcome.hits [])
    (LLMResponse.plainStr "x") "   " (by decide)⟩

/-- C8: for a store client whose calls always fail with a transient
connection error, the retried `get_relevant_documents` makes exactly 3
attempts (`stop_after_attempt(3)`), takes the exponential-backoff waits
`wait_exponential(multiplier=1, min=4, max=10)` computes after the first and
second failures, and then raises. The wait after the `n`-th failure is the
clamped exponential `max(4, min(2^n, 10))`, which is monotone in `n`. -/
theorem C8_retry_exhaustion (client : Nat → SearchOutcome) (m : String)
    (hclient : ∀ n, client n = SearchOutcome.connectionError m) :
    getRelevantWithRetry client
      = (Except.error (PyError.retryError (PyError.connectionError m)), 3,
         [waitExp 1, waitExp 2]) ∧
    (∀ n, waitExp n = max 4 (min (2 ^ n) 10)) ∧
    (∀ n, waitExp n ≤ waitExp (n + 1)) := by
  refine ⟨by simp [getRelevantWithRetry, hclient, get_relevant_documents_once],
    fun n => rfl, fun n => ?_⟩
  have h2 : (2 : Nat) ^ n ≤ 2 ^ (n + 1) :=
    Nat.pow_le_pow_right (by norm_num) (Nat.le_succ n)
  exact max_le_max le_rfl (min_le_min h2 le_rfl)

/-- C8 at a concrete input: a client that always raises
`ConnectionError "connection refused"`. -/
theorem C8_retry_exhaustion_witness :
    (∀ n : Nat, (fun _ : Nat => SearchOutcome.connectionError "connection refused") n
        = SearchOutcome.connectionError "connection refused") ∧
    getRelevantWithRetry (fun _ => SearchOutcome.connectionError "connection refused")
      = (Except.error (PyError.retryError (PyError.connectionError "connection refused")),
         3, [waitExp 1, waitExp 2]) ∧
    waitExp 1 = 4 ∧ waitExp 2 = 4 :=
  ⟨fun _ => rfl,
    (C8_retry_exhaustion (fun _ => SearchOutcome.connectionError "connection refused")
      "connection refused" (fun _ => rfl)).1,
    by decide, by decide⟩

/-- C9: context building is a deterministic, pure function of the ordered
document sequence — building twice yields identical text — and the empty
sequence yields the empty string (purity is definitional in this embedding:
`build_context` is a function of its input and of nothing else). -/
theorem C9_build_context_pure :
    (∀ docs : List Document, build_context docs = build_context docs) ∧
    build_context [] = "" :=
  ⟨fun _ => rfl, rfl⟩

/-- C10: the insufficient-context check uses the fixed threshold 10 — an unset
context is insufficient, and a present context is insufficient exactly when it
is empty or shorter than 10 characters, in which case the analyze stage
records the insufficient-data error without invoking the model — while the
context built from any nonempty document list is at least 10 characters long,
and therefore any state coming out of a successful (error-free) retrieval has
a sufficient context: the branch is unreachable after a successful non-empty
retrieval. -/
theorem C10_threshold :
    insufficientContext none = true ∧
    (∀ c : String, insufficientContext (some c) = true ↔ (c = "" ∨ c.length < 10)) ∧
    (∀ (llm : LLMResponse) (s : CustomsState), s.error = none →
        insufficientContext s.context = true →
        analyze_documents llm s
          = (Except.ok { s with error := some "Недостатньо даних для аналізу" }, 0)) ∧
    (∀ docs : List Document, docs ≠ [] → 10 ≤ (build_context docs).length) ∧
    (∀ (client : Nat → SearchOutcome) (s : CustomsState),
        (retrieve_documents client s).1.error = none →
        insufficientContext (retrieve_documents client s).1.context = false) := by
  refine ⟨rfl, fun c => by simp [insufficientContext], ?_, ?_, ?_⟩
  · intro llm s he hin
    simp [analyze_documents, he, hin]
  · intro docs hd
    cases docs with
    | nil => exact absurd rfl hd
    | cons d ds => exact le_trans (by norm_num) (build_context_length d ds)
  · intro client s hr
    obtain ⟨-, -, herr⟩ := retrieve_documents_cases client s
    rcases herr with hsome | ⟨-, d, ds, hctx⟩
    · rw [hr] at hsome
      simp at hsome
    · rw [hctx]
      exact insufficientContext_eq_false
        (le_trans (by norm_num) (build_context_length d ds))

/-- C10 at concrete inputs: a 5-character context triggers the
insufficient-data error without a model call; the context built from one
default document is at least 10 characters; a successful one-document
retrieval yields a sufficient context. -/
theorem C10_threshold_witness :
    (({ question := "q", context := some "short" } : CustomsState).error = none ∧
      insufficientContext (some "short") = true ∧
      analyze_documents (LLMResponse.humanMessage "ok")
          { question := "q", context := some "short" }
        = (Except.ok { question := "q", context := some "short",
                       error := some "Недостатньо даних для аналізу" }, 0)) ∧
    (([hitToDocument {}] : List Document) ≠ [] ∧
      10 ≤ (build_context [hitToDocument {}]).length) ∧
    ((retrieve_documents (fun _ => SearchOutcome.hits [{}])
        { question := "q" }).1.error = none ∧
      insufficientContext
        (retrieve_documents (fun _ => SearchOutcome.hits [{}])
          { question := "q" }).1.context = false) :=
  ⟨⟨rfl, by decide,
      C10_threshold.2.2.1 (LLMResponse.humanMessage "ok")
        { question := "q", context := some "short" } rfl (by decide)⟩,
   ⟨by decide, C10_threshold.2.2.2.1 [hitToDocument {}] (by decide)⟩,
   ⟨by decide, C10_threshold.2.2.2.2 (fun _ => SearchOutcome.hits [{}])
      { question := "q" } (by decide)⟩⟩

end CustomsQuery
